import Mathlib

/-!
Shallow embedding of the bar-aggregation engine from
nautilus_trader/common/market.pyx, of the position engine from
inv_trader/model/position.pyx, and of the position lifecycle events
(PositionOpened / PositionChanged / PositionClosed).  Prices and decimal
values are modelled as rationals or as integer-mantissa decimals,
timestamps as naturals (nanoseconds), machine integers as Int/Nat.
-/

/-- The price type of a bar specification (model.c_enums.price_type).
Only the three values the builder supports are modelled; any other
value is rejected at construction per the spec, so it never reaches
the functions embedded here. -/
inductive PriceType
  | bid
  | ask
  | mid
deriving DecidableEq, Repr

/-- A market quote tick: bid and ask price with sizes and a timestamp. -/
structure Tick where
  bid : Rat
  ask : Rat
  bid_size : Nat
  ask_size : Nat
  timestamp : Nat
deriving DecidableEq, Repr

/-- Bar specification: price type, price precision and step.
Modelled from the spec: the BarSpecification class itself is not in the
sources; the spec gives it a price type and a positive step, and states
that MID prices are rounded to the BarSpecification precision, so a
precision field is carried here. -/
structure BarSpecification where
  price_type : PriceType
  precision : Nat
  step : Nat
deriving DecidableEq, Repr

/-- Modelled from the spec: the Price constructor is not in the sources;
the spec states the MID price is rounded to the BarSpecification
precision.  Round to the nearest multiple of 10 ^ (-p), halves up. -/
def roundToPrecision (p : Nat) (x : Rat) : Rat :=
  ((Int.floor (x * (10 : Rat) ^ p + 1 / 2) : Int) : Rat) / (10 : Rat) ^ p

/-- A completed bar (model.objects.Bar).  The builder constructs it with
checked=False straight from its own fields, which may be null, hence the
Option price fields. -/
structure Bar where
  open_price : Option Rat
  high_price : Option Rat
  low_price : Option Rat
  close_price : Option Rat
  volume : Nat
  timestamp : Option Nat
deriving DecidableEq, Repr

/-- BarBuilder state (market.pyx, class BarBuilder). -/
structure BarBuilder where
  bar_spec : BarSpecification
  use_previous_close : Bool
  last_update : Option Nat
  count : Nat
  _open : Option Rat
  _high : Option Rat
  _low : Option Rat
  _close : Option Rat
  _volume : Nat
deriving DecidableEq, Repr

namespace BarBuilder

/-- BarBuilder.__init__ -/
def init (bar_spec : BarSpecification) (use_previous_close : Bool) : BarBuilder :=
  { bar_spec := bar_spec
    use_previous_close := use_previous_close
    last_update := none
    count := 0
    _open := none
    _high := none
    _low := none
    _close := none
    _volume := 0 }

/-- BarBuilder._get_price: derive the update price from a tick via the
bar specification price type. -/
def getPrice (b : BarBuilder) (t : Tick) : Rat :=
  match b.bar_spec.price_type with
  | PriceType.mid => roundToPrecision b.bar_spec.precision ((t.bid + t.ask) / 2)
  | PriceType.bid => t.bid
  | PriceType.ask => t.ask

/-- BarBuilder._get_volume: MID uses integer floor division of the
summed sizes. -/
def getVolume (b : BarBuilder) (t : Tick) : Nat :=
  match b.bar_spec.price_type with
  | PriceType.mid => (t.bid_size + t.ask_size) / 2
  | PriceType.bid => t.bid_size
  | PriceType.ask => t.ask_size

/-- BarBuilder.update(tick): seed OHLC on the first call after a null
reset, otherwise raise the high or lower the low in mutually exclusive
elif branches; always set close, accumulate volume, bump count, record
the timestamp.  In the source the high/low reads assume the class
invariant that open/high/low are all set together; the final wildcard
branch is that unreachable shape. -/
def update (b : BarBuilder) (t : Tick) : BarBuilder :=
  let quote := b.getPrice t
  let b1 :=
    match b._open, b._high, b._low with
    | none, _, _ =>
        { b with _open := some quote, _high := some quote, _low := some quote }
    | some _, some h, some l =>
        if h < quote then { b with _high := some quote }
        else if quote < l then { b with _low := some quote }
        else b
    | _, _, _ => b
  { b1 with
    _close := some quote
    _volume := b1._volume + b.getVolume t
    count := b1.count + 1
    last_update := some t.timestamp }

/-- BarBuilder._reset -/
def reset (b : BarBuilder) : BarBuilder :=
  let b1 :=
    if b.use_previous_close then
      { b with _open := b._close, _high := b._close, _low := b._close }
    else
      { b with _open := none, _high := none, _low := none, _close := none }
  { b1 with _volume := 0, count := 0 }

/-- BarBuilder.build(close_time): the close time defaults to the last
update; the Bar is constructed with checked=False straight from the
fields (the source performs no check that any update has occurred), and
the builder is reset. -/
def build (b : BarBuilder) (close_time : Option Nat) : Bar × BarBuilder :=
  let ct :=
    match close_time with
    | none => b.last_update
    | some u => some u
  (⟨b._open, b._high, b._low, b._close, b._volume, ct⟩, b.reset)

/-- Fold update over a list of ticks. -/
def updateAll (b : BarBuilder) (ts : List Tick) : BarBuilder :=
  ts.foldl update b

end BarBuilder

namespace TickBarAggregator

/-- One TickBarAggregator.update(tick) step: delegate to the builder,
then emit a bar when the count reaches the step. -/
def step (n : Nat) (b : BarBuilder) (t : Tick) : BarBuilder × List Bar :=
  let b1 := b.update t
  if b1.count = n then
    let built := b1.build none
    (built.2, [built.1])
  else (b1, [])

/-- Drive the aggregator over a tick stream, collecting emitted bars. -/
def run (n : Nat) (b : BarBuilder) : List Tick → BarBuilder × List Bar
  | [] => (b, [])
  | t :: ts =>
    let s1 := step n b t
    let s2 := run n s1.1 ts
    (s2.1, s1.2 ++ s2.2)

end TickBarAggregator

namespace TimeBarAggregator

/-- Modelled from the spec: the test clock fires every timer event due at
or before the advanced-to time.  With the repeating timer at next_close,
next_close + interval, ..., this is the number of due events. -/
def numDue (next_close interval ts : Nat) : Nat :=
  if ts < next_close then 0 else (ts - next_close) / interval + 1

/-- Fire n due timer events in due-time order; each handler is
TimeBarAggregator._build_event, which calls builder.build(event.timestamp)
and emits the bar.  Returns the bars in firing order, the builder and the
new next close time. -/
def fire (interval : Nat) : Nat → BarBuilder → Nat → List Bar × BarBuilder × Nat
  | 0, b, nc => ([], b, nc)
  | n + 1, b, nc =>
    let built := b.build (some nc)
    let rest := fire interval n built.2 (nc + interval)
    (built.1 :: rest.1, rest.2.1, rest.2.2)

/-- Aggregator state: its builder plus the simulated clock's next event
time (the aggregator mirror of clock.next_event_time). -/
structure State where
  builder : BarBuilder
  next_close : Nat
deriving DecidableEq, Repr

/-- TimeBarAggregator.update(tick) under a test clock: the builder is
updated with the tick first, then the clock is advanced to the tick
timestamp and all now-due timer events fire synchronously. -/
def step (interval : Nat) (s : State) (t : Tick) : State × List Bar :=
  let b := s.builder.update t
  let n := numDue s.next_close interval t.timestamp
  let fired := fire interval n b s.next_close
  (⟨fired.2.1, fired.2.2⟩, fired.1)

/-- Drive the aggregator over a tick stream, collecting emitted bars. -/
def run (interval : Nat) (s : State) : List Tick → State × List Bar
  | [] => (s, [])
  | t :: ts =>
    let s1 := step interval s t
    let s2 := run interval s1.1 ts
    (s2.1, s1.2 ++ s2.2)

end TimeBarAggregator

/-- Order side (inv_trader model.enums.OrderSide). -/
inductive OrderSide
  | buy
  | sell
deriving DecidableEq, Repr

/-- Market position (inv_trader model.enums.MarketPosition). -/
inductive MarketPosition
  | long
  | short
  | flat
deriving DecidableEq, Repr

/-- The order events Position.apply dispatches on.  The two fill kinds
(OrderFilled and OrderPartiallyFilled in the source) carry the fields the
position engine reads; the third constructor stands for every other
OrderEvent subtype, identified by its type name. -/
inductive OrderEvent
  | filled (order_side : OrderSide) (filled_quantity : Int) (average_price : Rat)
      (execution_time : Nat) (execution_id : String) (execution_ticket : String)
  | partFilled (order_side : OrderSide) (filled_quantity : Int) (average_price : Rat)
      (execution_time : Nat) (execution_id : String) (execution_ticket : String)
  | other (name : String)
deriving DecidableEq, Repr

/-- Position state (inv_trader model/position.pyx, class Position).
Symbols and identifiers are modelled as strings, quantities as Int
(cdef int in the source), prices as rationals, times as naturals. -/
structure Position where
  _symbol : String
  _id : String
  _timestamp : Nat
  _relative_quantity : Int
  _peak_quantity : Int
  _entry_time : Option Nat
  _exit_time : Option Nat
  _average_entry_price : Option Rat
  _average_exit_price : Option Rat
  _events : List OrderEvent
  _execution_ids : List String
  _execution_tickets : List String
deriving DecidableEq, Repr

namespace Position

/-- Position.__init__ -/
def init (symbol position_id : String) (timestamp : Nat) : Position :=
  { _symbol := symbol
    _id := position_id
    _timestamp := timestamp
    _relative_quantity := 0
    _peak_quantity := 0
    _entry_time := none
    _exit_time := none
    _average_entry_price := none
    _average_exit_price := none
    _events := []
    _execution_ids := []
    _execution_tickets := [] }

/-- Position.quantity property: absolute value of the relative quantity. -/
def quantity (p : Position) : Int := |p._relative_quantity|

/-- Position.market_position property. -/
def market_position (p : Position) : MarketPosition :=
  if 0 < p._relative_quantity then MarketPosition.long
  else if p._relative_quantity < 0 then MarketPosition.short
  else MarketPosition.flat

/-- Position._update_position (its Precondition checks are handled by
the caller, apply below).  Note the source guards the peak update with
abs(relative_quantity) but assigns the signed relative quantity. -/
def updatePosition (p : Position) (order_side : OrderSide) (qty : Int)
    (average_price : Rat) (event_time : Nat) : Position :=
  let rel :=
    match order_side with
    | OrderSide.buy => p._relative_quantity + qty
    | OrderSide.sell => p._relative_quantity - qty
  let peak := if p._peak_quantity < |rel| then rel else p._peak_quantity
  let entry :=
    match p._entry_time with
    | none => some event_time
    | some e => some e
  let p1 := { p with
    _relative_quantity := rel
    _peak_quantity := peak
    _entry_time := entry
    _average_entry_price := some average_price }
  if p1._entry_time.isSome ∧ rel = 0 then
    { p1 with _exit_time := some event_time, _average_exit_price := some average_price }
  else p1

/-- Position.apply(event): the event is appended to the event log first,
then the event is dispatched; a non-fill event raises TypeError and a
non-positive quantity or price fails its Precondition, in both cases
after the append.  Returns the (possibly partially) mutated state and
the optional error. -/
def apply (p : Position) (event : OrderEvent) : Position × Option String :=
  let p1 := { p with _events := p._events ++ [event] }
  match event with
  | OrderEvent.filled side qty px t eid etk =>
    if qty ≤ 0 then (p1, some "quantity must be positive")
    else if px ≤ 0 then (p1, some "average_price must be positive")
    else
      let p2 := p1.updatePosition side qty px t
      ({ p2 with
          _execution_ids := p2._execution_ids ++ [eid]
          _execution_tickets := p2._execution_tickets ++ [etk] }, none)
  | OrderEvent.partFilled side qty px t eid etk =>
    if qty ≤ 0 then (p1, some "quantity must be positive")
    else if px ≤ 0 then (p1, some "average_price must be positive")
    else
      let p2 := p1.updatePosition side qty px t
      ({ p2 with
          _execution_ids := p2._execution_ids ++ [eid]
          _execution_tickets := p2._execution_tickets ++ [etk] }, none)
  | OrderEvent.other _ => (p1, some "Cannot apply event (unrecognized event).")

end Position

/-- Python decimal.Decimal modelled as an integer mantissa with a decimal
scale: the value is man / 10 ^ scale.  The exact base-10 string encoding
of a decimal determines and is determined by this pair, so dict entries
below hold the pair itself in place of the string. -/
structure PyDecimal where
  man : Int
  scale : Nat
deriving DecidableEq, Repr

namespace PyDecimal

/-- The rational value of a decimal. -/
def val (d : PyDecimal) : Rat := (d.man : Rat) / (10 : Rat) ^ d.scale

/-- Numeric equality, matching Decimal.__eq__ in Python: the values
man1 / 10 ^ s1 and man2 / 10 ^ s2 are equal exactly when the cross
products man1 * 10 ^ s2 and man2 * 10 ^ s1 are. -/
def eqv (a b : PyDecimal) : Bool :=
  decide (a.man * 10 ^ b.scale = b.man * 10 ^ a.scale)

/-- Python truthiness: a Decimal is falsy exactly when it is zero. -/
def truthy (d : PyDecimal) : Bool := decide (d.man ≠ 0)

/-- Round-half-even integer division n / d for d > 0 (the banker
rounding of the default decimal context). -/
def rhe (n d : Int) : Int :=
  let q := Int.fdiv n d
  let r := n - d * q
  if 2 * r < d then q
  else if d < 2 * r then q + 1
  else if q % 2 = 0 then q else q + 1

/-- The f-string formatting to five decimal places used for
realized_return in to_dict_c: the value rounded half-even to scale 5. -/
def fmt5 (x : PyDecimal) : PyDecimal :=
  if x.scale ≤ 5 then ⟨x.man * 10 ^ (5 - x.scale), 5⟩
  else ⟨rhe x.man (10 ^ (x.scale - 5)), 5⟩

end PyDecimal

/-- Position side (model.c_enums.position_side). -/
inductive PositionSide
  | flat
  | long
  | short
deriving DecidableEq, Repr

/-- Money: a decimal amount in a currency.  Money.to_str and
Money.from_str_c round-trip exactly, so the dict entry holds the pair. -/
structure Money where
  amount : PyDecimal
  code : String
deriving DecidableEq, Repr

/-- Field content of a position lifecycle event (the PositionEvent base
class of the events source).  Identifier fields are modelled as their
string values (their wrappers round-trip through .value exactly);
Quantity, Price and Decimal fields as decimals (their exact base-10
string encodings round-trip exactly); timestamps as int64 values. -/
structure PositionEvent where
  trader_id : String
  strategy_id : String
  instrument_id : String
  position_id : String
  account_id : String
  from_order : String
  entry : OrderSide
  side : PositionSide
  net_qty : PyDecimal
  quantity : PyDecimal
  peak_qty : PyDecimal
  last_qty : PyDecimal
  last_px : PyDecimal
  currency : String
  avg_px_open : PyDecimal
  avg_px_close : Option PyDecimal
  realized_points : PyDecimal
  realized_return : PyDecimal
  realized_pnl : Money
  ts_opened_ns : Int
  ts_closed_ns : Int
  duration_ns : Int
  event_id : String
  timestamp_ns : Int
deriving DecidableEq, Repr

/-- The flat dict encoding shared by the three to_dict_c methods.  String
fields hold the id strings; enum fields stand for their parser strings
(OrderSideParser / PositionSideParser round-trip exactly); decimal fields
stand for their exact base-10 strings; avg_px_close is None when the
source writes None. -/
structure PositionEventDict where
  type_name : String
  trader_id : String
  strategy_id : String
  instrument_id : String
  position_id : String
  account_id : String
  from_order : String
  entry : OrderSide
  side : PositionSide
  net_qty : PyDecimal
  quantity : PyDecimal
  peak_qty : PyDecimal
  last_qty : PyDecimal
  last_px : PyDecimal
  currency : String
  avg_px_open : PyDecimal
  avg_px_close : Option PyDecimal
  realized_points : PyDecimal
  realized_return : PyDecimal
  realized_pnl : Money
  ts_opened_ns : Int
  ts_closed_ns : Int
  duration_ns : Int
  event_id : String
  timestamp_ns : Int
deriving DecidableEq, Repr

namespace PositionEvent

/-- The body shared by the three to_dict_c methods: avg_px_close is
written only when the Decimal is truthy (so a None or a numerically zero
average close price is written as None), and realized_return is written
with the fixed five-decimal f-string format instead of str(). -/
def toDictNamed (type_name : String) (e : PositionEvent) : PositionEventDict :=
  { type_name := type_name
    trader_id := e.trader_id
    strategy_id := e.strategy_id
    instrument_id := e.instrument_id
    position_id := e.position_id
    account_id := e.account_id
    from_order := e.from_order
    entry := e.entry
    side := e.side
    net_qty := e.net_qty
    quantity := e.quantity
    peak_qty := e.peak_qty
    last_qty := e.last_qty
    last_px := e.last_px
    currency := e.currency
    avg_px_open := e.avg_px_open
    avg_px_close :=
      match e.avg_px_close with
      | none => none
      | some v => if v.truthy then some v else none
    realized_points := e.realized_points
    realized_return := PyDecimal.fmt5 e.realized_return
    realized_pnl := e.realized_pnl
    ts_opened_ns := e.ts_opened_ns
    ts_closed_ns := e.ts_closed_ns
    duration_ns := e.duration_ns
    event_id := e.event_id
    timestamp_ns := e.timestamp_ns }

/-- Field-for-field equality of two events, with Decimal-typed fields
compared by Python Decimal equality (numeric) and all other fields
compared by value. -/
def eqb (a b : PositionEvent) : Bool :=
  a.trader_id == b.trader_id && a.strategy_id == b.strategy_id &&
  a.instrument_id == b.instrument_id && a.position_id == b.position_id &&
  a.account_id == b.account_id && a.from_order == b.from_order &&
  a.entry == b.entry && a.side == b.side &&
  PyDecimal.eqv a.net_qty b.net_qty && PyDecimal.eqv a.quantity b.quantity &&
  PyDecimal.eqv a.peak_qty b.peak_qty && PyDecimal.eqv a.last_qty b.last_qty &&
  PyDecimal.eqv a.last_px b.last_px && a.currency == b.currency &&
  PyDecimal.eqv a.avg_px_open b.avg_px_open &&
  (match a.avg_px_close, b.avg_px_close with
   | none, none => true
   | some x, some y => PyDecimal.eqv x y
   | _, _ => false) &&
  PyDecimal.eqv a.realized_points b.realized_points &&
  PyDecimal.eqv a.realized_return b.realized_return &&
  PyDecimal.eqv a.realized_pnl.amount b.realized_pnl.amount &&
  a.realized_pnl.code == b.realized_pnl.code &&
  a.ts_opened_ns == b.ts_opened_ns && a.ts_closed_ns == b.ts_closed_ns &&
  a.duration_ns == b.duration_ns && a.event_id == b.event_id &&
  a.timestamp_ns == b.timestamp_ns

end PositionEvent

/-- The Position fields the three create_c factories copy off the
position, for the newer nautilus_trader Position the events source works
with (that class is outside these sources; the fields are exactly the
attributes create_c reads). -/
structure PositionSnapshot where
  trader_id : String
  strategy_id : String
  instrument_id : String
  id : String
  account_id : String
  from_order : String
  entry : OrderSide
  side : PositionSide
  net_qty : PyDecimal
  quantity : PyDecimal
  peak_qty : PyDecimal
  quote_currency : String
  avg_px_open : PyDecimal
  avg_px_close : Option PyDecimal
  realized_points : PyDecimal
  realized_return : PyDecimal
  realized_pnl : Money
  ts_opened_ns : Int
  ts_closed_ns : Int
  duration_ns : Int
deriving DecidableEq, Repr

/-- The OrderFilled fields the create_c factories read. -/
structure OrderFillInfo where
  last_qty : PyDecimal
  last_px : PyDecimal
deriving DecidableEq, Repr

namespace PositionOpened

/-- PositionOpened.__init__: asserts side != FLAT, then builds the base
event with avg_px_close=None, ts_closed_ns=0 and duration_ns=0.  The
failed assertion is modelled as none. -/
def init (trader_id strategy_id instrument_id position_id account_id from_order : String)
    (entry : OrderSide) (side : PositionSide) (net_qty : PyDecimal)
    (quantity peak_qty last_qty last_px : PyDecimal) (currency : String)
    (avg_px_open realized_points realized_return : PyDecimal) (realized_pnl : Money)
    (ts_opened_ns : Int) (event_id : String) (timestamp_ns : Int) :
    Option PositionEvent :=
  if side = PositionSide.flat then none
  else some
    { trader_id, strategy_id, instrument_id, position_id, account_id, from_order,
      entry, side, net_qty, quantity, peak_qty, last_qty, last_px, currency,
      avg_px_open, avg_px_close := none, realized_points, realized_return,
      realized_pnl, ts_opened_ns, ts_closed_ns := 0, duration_ns := 0,
      event_id, timestamp_ns }

/-- PositionOpened.create_c -/
def create (p : PositionSnapshot) (fill : OrderFillInfo) (event_id : String)
    (timestamp_ns : Int) : Option PositionEvent :=
  init p.trader_id p.strategy_id p.instrument_id p.id p.account_id p.from_order
    p.entry p.side p.net_qty p.quantity p.peak_qty fill.last_qty fill.last_px
    p.quote_currency p.avg_px_open p.realized_points p.realized_return
    p.realized_pnl p.ts_opened_ns event_id timestamp_ns

/-- PositionOpened.from_dict_c: reads every field except avg_px_close,
ts_closed_ns and duration_ns, and calls the constructor. -/
def from_dict (d : PositionEventDict) : Option PositionEvent :=
  init d.trader_id d.strategy_id d.instrument_id d.position_id d.account_id
    d.from_order d.entry d.side d.net_qty d.quantity d.peak_qty d.last_qty
    d.last_px d.currency d.avg_px_open d.realized_points d.realized_return
    d.realized_pnl d.ts_opened_ns d.event_id d.timestamp_ns

/-- PositionOpened.to_dict_c -/
def to_dict (e : PositionEvent) : PositionEventDict :=
  PositionEvent.toDictNamed "PositionOpened" e

end PositionOpened

namespace PositionChanged

/-- PositionChanged.__init__: asserts side != FLAT, then builds the base
event with ts_closed_ns=0 and duration_ns=0. -/
def init (trader_id strategy_id instrument_id position_id account_id from_order : String)
    (entry : OrderSide) (side : PositionSide) (net_qty : PyDecimal)
    (quantity peak_qty last_qty last_px : PyDecimal) (currency : String)
    (avg_px_open : PyDecimal) (avg_px_close : Option PyDecimal)
    (realized_points realized_return : PyDecimal) (realized_pnl : Money)
    (ts_opened_ns : Int) (event_id : String) (timestamp_ns : Int) :
    Option PositionEvent :=
  if side = PositionSide.flat then none
  else some
    { trader_id, strategy_id, instrument_id, position_id, account_id, from_order,
      entry, side, net_qty, quantity, peak_qty, last_qty, last_px, currency,
      avg_px_open, avg_px_close, realized_points, realized_return,
      realized_pnl, ts_opened_ns, ts_closed_ns := 0, duration_ns := 0,
      event_id, timestamp_ns }

/-- PositionChanged.create_c -/
def create (p : PositionSnapshot) (fill : OrderFillInfo) (event_id : String)
    (timestamp_ns : Int) : Option PositionEvent :=
  init p.trader_id p.strategy_id p.instrument_id p.id p.account_id p.from_order
    p.entry p.side p.net_qty p.quantity p.peak_qty fill.last_qty fill.last_px
    p.quote_currency p.avg_px_open p.avg_px_close p.realized_points
    p.realized_return p.realized_pnl p.ts_opened_ns event_id timestamp_ns

/-- PositionChanged.from_dict_c: the avg_px_close entry is parsed when
present (a stored decimal string is non-empty, hence truthy) and None
maps to None. -/
def from_dict (d : PositionEventDict) : Option PositionEvent :=
  init d.trader_id d.strategy_id d.instrument_id d.position_id d.account_id
    d.from_order d.entry d.side d.net_qty d.quantity d.peak_qty d.last_qty
    d.last_px d.currency d.avg_px_open d.avg_px_close d.realized_points
    d.realized_return d.realized_pnl d.ts_opened_ns d.event_id d.timestamp_ns

/-- PositionChanged.to_dict_c -/
def to_dict (e : PositionEvent) : PositionEventDict :=
  PositionEvent.toDictNamed "PositionChanged" e

end PositionChanged

namespace PositionClosed

/-- PositionClosed.__init__: asserts side == FLAT; avg_px_close is a
required (not None) Decimal. -/
def init (trader_id strategy_id instrument_id position_id account_id from_order : String)
    (entry : OrderSide) (side : PositionSide) (net_qty : PyDecimal)
    (quantity peak_qty last_qty last_px : PyDecimal) (currency : String)
    (avg_px_open avg_px_close realized_points realized_return : PyDecimal)
    (realized_pnl : Money) (ts_opened_ns ts_closed_ns duration_ns : Int)
    (event_id : String) (timestamp_ns : Int) : Option PositionEvent :=
  if side = PositionSide.flat then some
    { trader_id, strategy_id, instrument_id, position_id, account_id, from_order,
      entry, side, net_qty, quantity, peak_qty, last_qty, last_px, currency,
      avg_px_open, avg_px_close := some avg_px_close, realized_points,
      realized_return, realized_pnl, ts_opened_ns, ts_closed_ns, duration_ns,
      event_id, timestamp_ns }
  else none

/-- PositionClosed.create_c: passing a None avg_px_close to the not-None
constructor parameter raises, modelled as none. -/
def create (p : PositionSnapshot) (fill : OrderFillInfo) (event_id : String)
    (timestamp_ns : Int) : Option PositionEvent :=
  match p.avg_px_close with
  | none => none
  | some apc =>
    init p.trader_id p.strategy_id p.instrument_id p.id p.account_id p.from_order
      p.entry p.side p.net_qty p.quantity p.peak_qty fill.last_qty fill.last_px
      p.quote_currency p.avg_px_open apc p.realized_points p.realized_return
      p.realized_pnl p.ts_opened_ns p.ts_closed_ns p.duration_ns event_id
      timestamp_ns

/-- PositionClosed.from_dict_c: Decimal(values["avg_px_close"]) raises on
None, modelled as none. -/
def from_dict (d : PositionEventDict) : Option PositionEvent :=
  match d.avg_px_close with
  | none => none
  | some apc =>
    init d.trader_id d.strategy_id d.instrument_id d.position_id d.account_id
      d.from_order d.entry d.side d.net_qty d.quantity d.peak_qty d.last_qty
      d.last_px d.currency d.avg_px_open apc d.realized_points d.realized_return
      d.realized_pnl d.ts_opened_ns d.ts_closed_ns d.duration_ns d.event_id
      d.timestamp_ns

/-- PositionClosed.to_dict_c -/
def to_dict (e : PositionEvent) : PositionEventDict :=
  PositionEvent.toDictNamed "PositionClosed" e

end PositionClosed

/-! Helper lemmas. -/

theorem updatePosition_avg_entry (p : Position) (side : OrderSide) (qty : Int)
    (px : Rat) (t : Nat) :
    (p.updatePosition side qty px t)._average_entry_price = some px := by
  simp only [Position.updatePosition, apply_ite Position._average_entry_price, ite_self]

theorem update_bar_spec (b : BarBuilder) (t : Tick) :
    (b.update t).bar_spec = b.bar_spec := by
  obtain ⟨sp, upc, lu, cnt, o, hi, lo, cl, vol⟩ := b
  cases o <;> cases hi <;> cases lo <;>
    simp only [BarBuilder.update] <;> split_ifs <;> rfl

theorem update_upc (b : BarBuilder) (t : Tick) :
    (b.update t).use_previous_close = b.use_previous_close := by
  obtain ⟨sp, upc, lu, cnt, o, hi, lo, cl, vol⟩ := b
  cases o <;> cases hi <;> cases lo <;>
    simp only [BarBuilder.update] <;> split_ifs <;> rfl

theorem update_close (b : BarBuilder) (t : Tick) :
    (b.update t)._close = some (b.getPrice t) := rfl

theorem update_last_update (b : BarBuilder) (t : Tick) :
    (b.update t).last_update = some t.timestamp := rfl

theorem update_count (b : BarBuilder) (t : Tick) :
    (b.update t).count = b.count + 1 := by
  obtain ⟨sp, upc, lu, cnt, o, hi, lo, cl, vol⟩ := b
  cases o <;> cases hi <;> cases lo <;>
    simp only [BarBuilder.update] <;> split_ifs <;> rfl

theorem update_volume (b : BarBuilder) (t : Tick) :
    (b.update t)._volume = b._volume + b.getVolume t := by
  obtain ⟨sp, upc, lu, cnt, o, hi, lo, cl, vol⟩ := b
  cases o <;> cases hi <;> cases lo <;>
    simp only [BarBuilder.update] <;> split_ifs <;> rfl

theorem update_open_some (b : BarBuilder) (t : Tick) (o : Rat)
    (ho : b._open = some o) : (b.update t)._open = some o := by
  obtain ⟨sp, upc, lu, cnt, ob, hi, lo, cl, vol⟩ := b
  cases ob <;> cases hi <;> cases lo <;>
    simp only [BarBuilder.update] <;> (try split_ifs) <;> simpa using ho

/-! Claim C9. -/

/-- Claim C9: the first update after a null reset seeds
open = high = low = close with the derived tick price; every later
update (given the class invariant that open, high and low are set
together with low ≤ high) leaves open in place, sets high to
max(high, price), low to min(low, price), close to price, adds the tick
volume, increments count by one and records the timestamp — and no
single update both raises the high and lowers the low. -/
theorem C9_update_seeds_then_max_min (b : BarBuilder) (t : Tick) :
    (b._open = none →
      b.update t = { b with
        _open := some (b.getPrice t)
        _high := some (b.getPrice t)
        _low := some (b.getPrice t)
        _close := some (b.getPrice t)
        _volume := b._volume + b.getVolume t
        count := b.count + 1
        last_update := some t.timestamp }) ∧
    (∀ o h l, b._open = some o → b._high = some h → b._low = some l → l ≤ h →
      (b.update t)._open = some o ∧
      (b.update t)._high = some (max h (b.getPrice t)) ∧
      (b.update t)._low = some (min l (b.getPrice t)) ∧
      (b.update t)._close = some (b.getPrice t) ∧
      (b.update t)._volume = b._volume + b.getVolume t ∧
      (b.update t).count = b.count + 1 ∧
      (b.update t).last_update = some t.timestamp ∧
      ¬(h < max h (b.getPrice t) ∧ min l (b.getPrice t) < l)) := by
  constructor
  · intro ho
    obtain ⟨sp, upc, lu, cnt, ob, hi, lo, cl, vol⟩ := b
    cases ho
    rfl
  · intro o h l ho hh hl hlh
    refine ⟨update_open_some b t o ho, ?_, ?_, update_close b t,
      update_volume b t, update_count b t, update_last_update b t, ?_⟩
    · obtain ⟨sp, upc, lu, cnt, ob, hi, lo, cl, vol⟩ := b
      cases ho; cases hh; cases hl
      simp only [BarBuilder.update]
      rcases lt_or_le h (BarBuilder.getPrice ⟨sp, upc, lu, cnt, some o, some h, some l, cl, vol⟩ t) with h1 | h1
      · rw [if_pos h1, max_eq_right h1.le]
      · rw [if_neg (not_lt.mpr h1), max_eq_left h1]
        split_ifs <;> rfl
    · obtain ⟨sp, upc, lu, cnt, ob, hi, lo, cl, vol⟩ := b
      cases ho; cases hh; cases hl
      simp only [BarBuilder.update]
      rcases lt_or_le (BarBuilder.getPrice ⟨sp, upc, lu, cnt, some o, some h, some l, cl, vol⟩ t) l with h2 | h2
      · rw [if_neg (not_lt.mpr (h2.le.trans hlh)), if_pos h2, min_eq_right h2.le]
      · rw [min_eq_left h2]
        split_ifs with ha hb
        · rfl
        · exact absurd hb (not_lt.mpr h2)
        · rfl
    · rintro ⟨hhi, hlo⟩
      rw [lt_max_iff] at hhi
      rw [min_lt_iff] at hlo
      have hq1 : h < b.getPrice t := hhi.resolve_left (lt_irrefl h)
      have hq2 : b.getPrice t < l := hlo.resolve_left (lt_irrefl l)
      exact absurd (hq2.trans_le hlh) (lt_asymm hq1)

/-- Witness for C9 at a concrete builder and tick. -/
theorem C9_update_seeds_then_max_min_witness :
    (BarBuilder.init ⟨PriceType.bid, 5, 1⟩ false).update ⟨2, 3, 1, 1, 7⟩
      = { BarBuilder.init ⟨PriceType.bid, 5, 1⟩ false with
          _open := some 2, _high := some 2, _low := some 2, _close := some 2,
          _volume := 1, count := 1, last_update := some 7 } :=
  (C9_update_seeds_then_max_min (BarBuilder.init ⟨PriceType.bid, 5, 1⟩ false)
    ⟨2, 3, 1, 1, 7⟩).1 rfl

theorem updateAll_append (b : BarBuilder) (l1 l2 : List Tick) :
    b.updateAll (l1 ++ l2) = (b.updateAll l1).updateAll l2 :=
  List.foldl_append _ _ _ _

theorem updateAll_bar_spec : ∀ (l : List Tick) (b : BarBuilder),
    (b.updateAll l).bar_spec = b.bar_spec
  | [], _ => rfl
  | t :: ts, b => by
    show ((b.update t).updateAll ts).bar_spec = b.bar_spec
    rw [updateAll_bar_spec ts (b.update t), update_bar_spec]

theorem updateAll_upc : ∀ (l : List Tick) (b : BarBuilder),
    (b.updateAll l).use_previous_close = b.use_previous_close
  | [], _ => rfl
  | t :: ts, b => by
    show ((b.update t).updateAll ts).use_previous_close = b.use_previous_close
    rw [updateAll_upc ts (b.update t), update_upc]

theorem build_close_price (b : BarBuilder) (ct : Option Nat) :
    (b.build ct).1.close_price = b._close := rfl

theorem getPrice_congr (b b' : BarBuilder) (t : Tick) (h : b.bar_spec = b'.bar_spec) :
    b.getPrice t = b'.getPrice t := by
  unfold BarBuilder.getPrice
  rw [h]

/-! Claim C8. -/

/-- Claim C8: with price type MID, the close of the built bar is the
midpoint of the bid and ask of the last tick fed to the builder, rounded
to the BarSpecification precision. -/
theorem C8_mid_close_is_rounded_midpoint (sp : BarSpecification)
    (hmid : sp.price_type = PriceType.mid) (upc : Bool) (l : List Tick)
    (t : Tick) (ct : Option Nat) :
    (((BarBuilder.init sp upc).updateAll (l ++ [t])).build ct).1.close_price
      = some (roundToPrecision sp.precision ((t.bid + t.ask) / 2)) := by
  rw [build_close_price, updateAll_append]
  have h2 : ((BarBuilder.init sp upc).updateAll l).updateAll [t]
      = ((BarBuilder.init sp upc).updateAll l).update t := rfl
  rw [h2, update_close]
  rw [getPrice_congr _ (BarBuilder.init sp upc) t (updateAll_bar_spec l _)]
  have h3 : (BarBuilder.init sp upc).getPrice t
      = roundToPrecision sp.precision ((t.bid + t.ask) / 2) := by
    dsimp only [BarBuilder.getPrice, BarBuilder.init]
    rw [hmid]
  rw [h3]

/-- Witness for C8 at a concrete builder and tick stream. -/
theorem C8_mid_close_is_rounded_midpoint_witness :
    (((BarBuilder.init ⟨PriceType.mid, 1, 1⟩ false).updateAll
        ([⟨1, 2, 1, 1, 3⟩] ++ [⟨2, 3, 4, 5, 9⟩])).build none).1.close_price
      = some (roundToPrecision 1 (((2 : Rat) + 3) / 2)) :=
  C8_mid_close_is_rounded_midpoint ⟨PriceType.mid, 1, 1⟩ rfl false
    [⟨1, 2, 1, 1, 3⟩] ⟨2, 3, 4, 5, 9⟩ none

/-! Claim C7 infrastructure. -/

/-- A fresh tick-bar builder state up to its last_update field: this is
exactly the builder state after a build with use_previous_close false,
whose reset clears everything except last_update. -/
def freshWith (sp : BarSpecification) (lu : Option Nat) : BarBuilder :=
  { BarBuilder.init sp false with last_update := lu }

theorem update_freshWith (sp : BarSpecification) (lu : Option Nat) (t : Tick) :
    (freshWith sp lu).update t = (BarBuilder.init sp false).update t := rfl

theorem updateAll_freshWith (sp : BarSpecification) (lu : Option Nat)
    (l : List Tick) (hne : l ≠ []) :
    (freshWith sp lu).updateAll l = (BarBuilder.init sp false).updateAll l := by
  cases l with
  | nil => exact absurd rfl hne
  | cons t ts =>
    show ((freshWith sp lu).update t).updateAll ts
      = ((BarBuilder.init sp false).update t).updateAll ts
    rw [update_freshWith]

theorem reset_eq_freshWith (b : BarBuilder) (sp : BarSpecification)
    (hspec : b.bar_spec = sp) (hupc : b.use_previous_close = false) :
    b.reset = freshWith sp b.last_update := by
  obtain ⟨bsp, upc, lu, cnt, o, hi, lo, cl, vol⟩ := b
  cases hspec
  cases hupc
  rfl

theorem tba_run_cons (n : Nat) (b : BarBuilder) (t : Tick) (l : List Tick) :
    TickBarAggregator.run n b (t :: l)
      = ((TickBarAggregator.run n (TickBarAggregator.step n b t).1 l).1,
         (TickBarAggregator.step n b t).2
           ++ (TickBarAggregator.run n (TickBarAggregator.step n b t).1 l).2) := rfl

theorem tba_step_no_emit (n : Nat) (b : BarBuilder) (t : Tick)
    (hc : ¬ ((b.update t).count = n)) :
    TickBarAggregator.step n b t = (b.update t, []) := by
  simp only [TickBarAggregator.step, if_neg hc]

theorem tba_step_emit (n : Nat) (b : BarBuilder) (t : Tick)
    (hc : (b.update t).count = n) :
    TickBarAggregator.step n b t
      = (((b.update t).build none).2, [((b.update t).build none).1]) := by
  simp only [TickBarAggregator.step, if_pos hc]

theorem tba_run_append (n : Nat) (l1 l2 : List Tick) (b : BarBuilder) :
    TickBarAggregator.run n b (l1 ++ l2)
      = ((TickBarAggregator.run n (TickBarAggregator.run n b l1).1 l2).1,
         (TickBarAggregator.run n b l1).2
           ++ (TickBarAggregator.run n (TickBarAggregator.run n b l1).1 l2).2) := by
  induction l1 generalizing b with
  | nil => simp [TickBarAggregator.run]
  | cons t ts ih =>
    rw [List.cons_append, tba_run_cons, tba_run_cons, ih]
    simp [List.append_assoc]

theorem tba_run_no_emit (n : Nat) (l : List Tick) : ∀ (b : BarBuilder),
    b.count + l.length < n → TickBarAggregator.run n b l = (b.updateAll l, []) := by
  induction l with
  | nil => intro b _; rfl
  | cons t ts ih =>
    intro b h
    have hc : ¬ ((b.update t).count = n) := by
      rw [update_count]
      simp only [List.length_cons] at h
      omega
    rw [tba_run_cons, tba_step_no_emit n b t hc]
    rw [ih (b.update t) (by rw [update_count]; simp only [List.length_cons] at h; omega)]
    rfl

theorem tba_run_chunk (n : Nat) (l : List Tick) : ∀ (b : BarBuilder), l ≠ [] →
    b.count + l.length = n →
    TickBarAggregator.run n b l
      = (((b.updateAll l).build none).2, [((b.updateAll l).build none).1]) := by
  induction l with
  | nil => intro _ hne _; exact absurd rfl hne
  | cons t ts ih =>
    intro b _ hlen
    cases ts with
    | nil =>
      have hc : (b.update t).count = n := by
        rw [update_count]
        simpa using hlen
      rw [tba_run_cons, tba_step_emit n b t hc]
      rfl
    | cons t2 ts2 =>
      have hc : ¬ ((b.update t).count = n) := by
        rw [update_count]
        simp only [List.length_cons] at hlen
        omega
      rw [tba_run_cons, tba_step_no_emit n b t hc]
      rw [ih (b.update t) (by simp)
        (by rw [update_count]; simp only [List.length_cons] at hlen ⊢; omega)]
      rfl

/-- The bar built by a fresh builder fed exactly the i-th chunk of n
consecutive ticks (positions i*n to i*n + n - 1) of a stream. -/
def chunkBar (sp : BarSpecification) (ticks : List Tick) (n i : Nat) : Bar :=
  (((BarBuilder.init sp false).updateAll ((ticks.drop (i * n)).take n)).build none).1

theorem tba_run_chunks (sp : BarSpecification) (n : Nat) (hn : 0 < n) :
    ∀ (m : Nat) (ticks : List Tick), ticks.length ≤ m → ∀ (lu : Option Nat),
    (TickBarAggregator.run n (freshWith sp lu) ticks).2
      = (List.range (ticks.length / n)).map (chunkBar sp ticks n) := by
  intro m
  induction m with
  | zero =>
    intro ticks hlen lu
    have hnil : ticks = [] := List.eq_nil_of_length_eq_zero (Nat.le_zero.mp hlen)
    subst hnil
    simp [TickBarAggregator.run, Nat.zero_div]
  | succ m ih =>
    intro ticks hlen lu
    by_cases hsmall : ticks.length < n
    · rw [tba_run_no_emit n ticks (freshWith sp lu)
        (by simpa [freshWith, BarBuilder.init] using hsmall)]
      rw [Nat.div_eq_of_lt hsmall]
      rfl
    · push_neg at hsmall
      have hne : ticks.take n ≠ [] := by
        intro hnil
        have hlt := congrArg List.length hnil
        simp only [List.length_take, List.length_nil] at hlt
        omega
      have hcnt : (freshWith sp lu).count + (ticks.take n).length = n := by
        simp only [freshWith, BarBuilder.init, List.length_take]
        omega
      have hrunchunk := tba_run_chunk n (ticks.take n) (freshWith sp lu) hne hcnt
      have happ : (TickBarAggregator.run n (freshWith sp lu) ticks).2
          = (TickBarAggregator.run n (freshWith sp lu) (ticks.take n)).2
            ++ (TickBarAggregator.run n
                 (TickBarAggregator.run n (freshWith sp lu) (ticks.take n)).1
                 (ticks.drop n)).2 := by
        conv_lhs => rw [← List.take_append_drop n ticks, tba_run_append]
      have hb2 : (TickBarAggregator.run n (freshWith sp lu) (ticks.take n)).1
          = freshWith sp ((freshWith sp lu).updateAll (ticks.take n)).last_update := by
        rw [hrunchunk]
        exact reset_eq_freshWith _ sp
          (by rw [updateAll_bar_spec]; rfl) (by rw [updateAll_upc]; rfl)
      have hbars1 : (TickBarAggregator.run n (freshWith sp lu) (ticks.take n)).2
          = [(((BarBuilder.init sp false).updateAll (ticks.take n)).build none).1] := by
        rw [hrunchunk, updateAll_freshWith sp lu _ hne]
      rw [happ, hbars1, hb2,
        ih (ticks.drop n) (by simp only [List.length_drop]; omega) _]
      have hdiv : ticks.length / n = (ticks.length - n) / n + 1 :=
        Nat.div_eq_sub_div hn hsmall
      rw [List.length_drop, hdiv, List.range_succ_eq_map, List.map_cons,
        List.map_map, List.singleton_append]
      congr 1
      · simp [chunkBar]
      · apply List.map_congr_left
        intro i _
        simp only [chunkBar, Function.comp_apply, List.drop_drop, Nat.succ_mul]
        rw [Nat.add_comm n (i * n)]

/-! Claim C7. -/

/-- Claim C7: a TickBarAggregator with positive step emits exactly
floor(T / step) bars over a stream of T ticks, and the i-th emitted bar
(0-based) is exactly the bar built from the i-th block of step
consecutive ticks, so the blocks do not overlap and a trailing
remainder shorter than step emits nothing. -/
theorem C7_tick_bars_chunked (sp : BarSpecification) (hn : 0 < sp.step)
    (ticks : List Tick) :
    (TickBarAggregator.run sp.step (BarBuilder.init sp false) ticks).2
      = (List.range (ticks.length / sp.step)).map (chunkBar sp ticks sp.step) :=
  tba_run_chunks sp sp.step hn ticks.length ticks le_rfl none

/-- Concrete tick stream for the C7 witness: five ticks. -/
def c7ticks : List Tick :=
  [⟨1, 2, 1, 1, 1⟩, ⟨2, 3, 1, 1, 2⟩, ⟨3, 4, 1, 1, 3⟩, ⟨1, 2, 1, 1, 4⟩, ⟨5, 6, 1, 1, 5⟩]

/-- Witness for C7 at a concrete step and tick stream (two bars from
five ticks at step two, the fifth tick dropped). -/
theorem C7_tick_bars_chunked_witness :
    (TickBarAggregator.run (⟨PriceType.bid, 1, 2⟩ : BarSpecification).step
        (BarBuilder.init ⟨PriceType.bid, 1, 2⟩ false) c7ticks).2
      = (List.range (c7ticks.length / (⟨PriceType.bid, 1, 2⟩ : BarSpecification).step)).map
          (chunkBar ⟨PriceType.bid, 1, 2⟩ c7ticks (⟨PriceType.bid, 1, 2⟩ : BarSpecification).step) :=
  C7_tick_bars_chunked ⟨PriceType.bid, 1, 2⟩ (by decide) c7ticks

/-! Claim C6 infrastructure: bar count. -/

theorem time_run_cons (Δ : Nat) (s : TimeBarAggregator.State) (t : Tick)
    (l : List Tick) :
    TimeBarAggregator.run Δ s (t :: l)
      = ((TimeBarAggregator.run Δ (TimeBarAggregator.step Δ s t).1 l).1,
         (TimeBarAggregator.step Δ s t).2
           ++ (TimeBarAggregator.run Δ (TimeBarAggregator.step Δ s t).1 l).2) := rfl

theorem fire_len (Δ : Nat) : ∀ (m : Nat) (b : BarBuilder) (nc : Nat),
    (TimeBarAggregator.fire Δ m b nc).1.length = m
  | 0, _, _ => rfl
  | m + 1, b, nc => by
    simp only [TimeBarAggregator.fire, List.length_cons]
    rw [fire_len Δ m]

theorem fire_nc (Δ : Nat) : ∀ (m : Nat) (b : BarBuilder) (nc : Nat),
    (TimeBarAggregator.fire Δ m b nc).2.2 = nc + Δ * m
  | 0, _, _ => by simp [TimeBarAggregator.fire]
  | m + 1, b, nc => by
    simp only [TimeBarAggregator.fire]
    rw [fire_nc Δ m, Nat.mul_succ]
    omega

theorem time_step_len (Δ : Nat) (s : TimeBarAggregator.State) (t : Tick) :
    (TimeBarAggregator.step Δ s t).2.length
      = TimeBarAggregator.numDue s.next_close Δ t.timestamp := by
  simp only [TimeBarAggregator.step]
  rw [fire_len]

theorem time_step_nc (Δ : Nat) (s : TimeBarAggregator.State) (t : Tick) :
    (TimeBarAggregator.step Δ s t).1.next_close
      = s.next_close + Δ * TimeBarAggregator.numDue s.next_close Δ t.timestamp := by
  simp only [TimeBarAggregator.step]
  rw [fire_nc]

theorem numDue_add (Δ : Nat) (hΔ : 0 < Δ) (nc ts1 ts2 : Nat) (h12 : ts1 ≤ ts2) :
    TimeBarAggregator.numDue nc Δ ts1
      + TimeBarAggregator.numDue
          (nc + Δ * TimeBarAggregator.numDue nc Δ ts1) Δ ts2
      = TimeBarAggregator.numDue nc Δ ts2 := by
  unfold TimeBarAggregator.numDue
  by_cases h1 : ts1 < nc
  · rw [if_pos h1]
    simp
  · rw [if_neg h1]
    push_neg at h1
    have h2 : ¬ ts2 < nc := by omega
    rw [if_neg h2]
    by_cases h3 : ts2 < nc + Δ * ((ts1 - nc) / Δ + 1)
    · rw [if_pos h3]
      have hle : (ts1 - nc) / Δ ≤ (ts2 - nc) / Δ := Nat.div_le_div_right (by omega)
      have hge : (ts2 - nc) / Δ < (ts1 - nc) / Δ + 1 := by
        rw [Nat.div_lt_iff_lt_mul hΔ]
        have hmul : Δ * ((ts1 - nc) / Δ + 1) = ((ts1 - nc) / Δ + 1) * Δ :=
          Nat.mul_comm _ _
        omega
      omega
    · rw [if_neg h3]
      push_neg at h3
      have hsub : ts2 - (nc + Δ * ((ts1 - nc) / Δ + 1))
          = (ts2 - nc) - Δ * ((ts1 - nc) / Δ + 1) := by omega
      rw [hsub, Nat.sub_mul_div _ _ _ (by omega)]
      have hk1le : (ts1 - nc) / Δ + 1 ≤ (ts2 - nc) / Δ := by
        rw [Nat.le_div_iff_mul_le hΔ]
        have hmul : ((ts1 - nc) / Δ + 1) * Δ = Δ * ((ts1 - nc) / Δ + 1) :=
          Nat.mul_comm _ _
        omega
      omega

theorem chain_head_le_getLast : ∀ (l : List Tick) (t : Tick),
    List.Chain' (fun a b => a.timestamp ≤ b.timestamp) (t :: l) →
    t.timestamp ≤ ((t :: l).getLast (List.cons_ne_nil t l)).timestamp
  | [], _, _ => le_rfl
  | t2 :: ts, t, h => by
    have h1 : t.timestamp ≤ t2.timestamp := (List.chain'_cons.mp h).1
    have h2 := chain_head_le_getLast ts t2 (List.chain'_cons.mp h).2
    rw [List.getLast_cons (List.cons_ne_nil t2 ts)]
    exact h1.trans h2

theorem time_run_length (Δ : Nat) (hΔ : 0 < Δ) : ∀ (l : List Tick) (t : Tick)
    (s : TimeBarAggregator.State),
    List.Chain' (fun a b => a.timestamp ≤ b.timestamp) (t :: l) →
    (TimeBarAggregator.run Δ s (t :: l)).2.length
      = TimeBarAggregator.numDue s.next_close Δ
          (((t :: l).getLast (List.cons_ne_nil t l)).timestamp) := by
  intro l
  induction l with
  | nil =>
    intro t s _
    rw [time_run_cons]
    simp only [List.length_append, List.length_nil]
    rw [time_step_len]
    simp [TimeBarAggregator.run]
  | cons t2 ts ih =>
    intro t s hchain
    rw [time_run_cons]
    simp only [List.length_append]
    rw [time_step_len,
      ih t2 (TimeBarAggregator.step Δ s t).1 (List.chain'_cons.mp hchain).2,
      time_step_nc]
    rw [List.getLast_cons (List.cons_ne_nil t2 ts)]
    exact numDue_add Δ hΔ s.next_close t.timestamp _
      ((List.chain'_cons.mp hchain).1.trans
        (chain_head_le_getLast ts t2 (List.chain'_cons.mp hchain).2))

/-! Claim C6 infrastructure: bar continuity. -/

theorem reset_upc (b : BarBuilder) :
    b.reset.use_previous_close = b.use_previous_close := by
  unfold BarBuilder.reset
  split_ifs <;> rfl

theorem reset_fields_of_upc (b : BarBuilder) (h : b.use_previous_close = true) :
    b.reset._open = b._close ∧ b.reset._close = b._close := by
  unfold BarBuilder.reset
  rw [if_pos h]
  exact ⟨rfl, rfl⟩

theorem build_snd_upc (b : BarBuilder) (ct : Option Nat) :
    (b.build ct).2.use_previous_close = b.use_previous_close := reset_upc b

theorem fire_close (Δ : Nat) : ∀ (m : Nat) (b : BarBuilder) (nc : Nat),
    b.use_previous_close = true →
    (TimeBarAggregator.fire Δ m b nc).2.1._close = b._close
  | 0, _, _, _ => rfl
  | m + 1, b, nc, h => by
    show (TimeBarAggregator.fire Δ m (b.build (some nc)).2 (nc + Δ)).2.1._close
      = b._close
    rw [fire_close Δ m _ _ (by rw [build_snd_upc]; exact h)]
    exact (reset_fields_of_upc b h).2

theorem fire_open_of_pos (Δ : Nat) : ∀ (m : Nat) (b : BarBuilder) (nc : Nat),
    b.use_previous_close = true → m ≠ 0 →
    (TimeBarAggregator.fire Δ m b nc).2.1._open = b._close
  | 0, _, _, _, hm => absurd rfl hm
  | m + 1, b, nc, h, _ => by
    show (TimeBarAggregator.fire Δ m (b.build (some nc)).2 (nc + Δ)).2.1._open
      = b._close
    cases m with
    | zero => exact (reset_fields_of_upc b h).1
    | succ m' =>
      rw [fire_open_of_pos Δ (m' + 1) _ _ (by rw [build_snd_upc]; exact h)
        (Nat.succ_ne_zero m')]
      exact (reset_fields_of_upc b h).2

theorem fire_head_open (Δ : Nat) (m : Nat) (b : BarBuilder) (nc : Nat) (bar : Bar)
    (h : (TimeBarAggregator.fire Δ m b nc).1.head? = some bar) :
    bar.open_price = b._open := by
  cases m with
  | zero => simp [TimeBarAggregator.fire] at h
  | succ m' =>
    have hbar : (b.build (some nc)).1 = bar := by
      simpa [TimeBarAggregator.fire] using h
    rw [← hbar]
    rfl

theorem fire_last_close (Δ : Nat) : ∀ (m : Nat) (b : BarBuilder) (nc : Nat),
    b.use_previous_close = true → ∀ (bar : Bar),
    (TimeBarAggregator.fire Δ m b nc).1.getLast? = some bar →
    bar.close_price = b._close
  | 0, b, nc, _, bar, hl => by simp [TimeBarAggregator.fire] at hl
  | m + 1, b, nc, h, bar, hl => by
    cases m with
    | zero =>
      have hbar : (b.build (some nc)).1 = bar := by
        simpa [TimeBarAggregator.fire] using hl
      rw [← hbar]
      rfl
    | succ m' =>
      have hupc2 : (b.build (some nc)).2.use_previous_close = true := by
        rw [build_snd_upc]
        exact h
      have hne : (TimeBarAggregator.fire Δ (m' + 1) (b.build (some nc)).2 (nc + Δ)).1 ≠ [] := by
        intro hx
        have hlen := congrArg List.length hx
        rw [fire_len] at hlen
        simp at hlen
      obtain ⟨r, rs, hr⟩ := List.exists_cons_of_ne_nil hne
      have hstep : (TimeBarAggregator.fire Δ (m' + 1 + 1) b nc).1
          = (b.build (some nc)).1
            :: (TimeBarAggregator.fire Δ (m' + 1) (b.build (some nc)).2 (nc + Δ)).1 := rfl
      rw [hstep, hr, List.getLast?_cons_cons, ← hr] at hl
      rw [fire_last_close Δ (m' + 1) _ _ hupc2 bar hl]
      exact (reset_fields_of_upc b h).2

theorem fire_chain (Δ : Nat) : ∀ (m : Nat) (b : BarBuilder) (nc : Nat),
    b.use_previous_close = true →
    List.Chain' (fun x y => y.open_price = x.close_price)
      (TimeBarAggregator.fire Δ m b nc).1
  | 0, _, _, _ => List.chain'_nil
  | m + 1, b, nc, h => by
    have hupc2 : (b.build (some nc)).2.use_previous_close = true := by
      rw [build_snd_upc]
      exact h
    have hstep : (TimeBarAggregator.fire Δ (m + 1) b nc).1
        = (b.build (some nc)).1
          :: (TimeBarAggregator.fire Δ m (b.build (some nc)).2 (nc + Δ)).1 := rfl
    rw [hstep, List.chain'_cons']
    refine ⟨?_, fire_chain Δ m _ _ hupc2⟩
    intro y hy
    have hopen := fire_head_open Δ m _ _ y hy
    rw [hopen]
    show b.reset._open = b._close
    exact (reset_fields_of_upc b h).1

theorem time_run_chain (Δ : Nat) : ∀ (l : List Tick) (s : TimeBarAggregator.State),
    s.builder.use_previous_close = true →
    List.Chain' (fun x y => y.open_price = x.close_price)
      (TimeBarAggregator.run Δ s l).2
    ∧ (∀ (q : Rat), s.builder._open = some q → ∀ (bar : Bar),
        (TimeBarAggregator.run Δ s l).2.head? = some bar →
        bar.open_price = some q) := by
  intro l
  induction l with
  | nil =>
    intro s _
    exact ⟨List.chain'_nil, by intro q _ bar hbar; simp [TimeBarAggregator.run] at hbar⟩
  | cons t ts ih =>
    intro s h
    have hupd : (s.builder.update t).use_previous_close = true := by
      rw [update_upc]
      exact h
    have hsplit : (TimeBarAggregator.run Δ s (t :: ts)).2
        = (TimeBarAggregator.step Δ s t).2
          ++ (TimeBarAggregator.run Δ (TimeBarAggregator.step Δ s t).1 ts).2 := rfl
    have hsb : (TimeBarAggregator.step Δ s t).1.builder
        = (TimeBarAggregator.fire Δ
            (TimeBarAggregator.numDue s.next_close Δ t.timestamp)
            (s.builder.update t) s.next_close).2.1 := rfl
    have hupcnext : (TimeBarAggregator.step Δ s t).1.builder.use_previous_close = true := by
      rw [hsb]
      rw [show ∀ (m : Nat) (b : BarBuilder) (nc : Nat),
        (TimeBarAggregator.fire Δ m b nc).2.1.use_previous_close
          = b.use_previous_close from ?_]
      · exact hupd
      · intro m
        induction m with
        | zero => intro b nc; rfl
        | succ m' ihm =>
          intro b nc
          show (TimeBarAggregator.fire Δ m' (b.build (some nc)).2 (nc + Δ)).2.1.use_previous_close = _
          rw [ihm, build_snd_upc]
    have hbars : (TimeBarAggregator.step Δ s t).2
        = (TimeBarAggregator.fire Δ
            (TimeBarAggregator.numDue s.next_close Δ t.timestamp)
            (s.builder.update t) s.next_close).1 := rfl
    rcases Nat.eq_zero_or_pos (TimeBarAggregator.numDue s.next_close Δ t.timestamp) with hn | hn
    · -- no timer fires: the step emits nothing and keeps the updated builder
      have hnil : (TimeBarAggregator.step Δ s t).2 = [] := by
        rw [hbars, hn]
        rfl
      have hkeep : (TimeBarAggregator.step Δ s t).1.builder = s.builder.update t := by
        rw [hsb, hn]
        rfl
      constructor
      · rw [hsplit, hnil, List.nil_append]
        exact (ih _ (by rw [hkeep]; exact hupd)).1
      · intro q hq bar hbar
        rw [hsplit, hnil, List.nil_append] at hbar
        exact (ih _ (by rw [hkeep]; exact hupd)).2 q
          (by rw [hkeep]; exact update_open_some s.builder t q hq) bar hbar
    · have hne : (TimeBarAggregator.step Δ s t).2 ≠ [] := by
        rw [hbars]
        intro hx
        have hlen := congrArg List.length hx
        rw [fire_len] at hlen
        simp at hlen
        omega
      have hopen2 : (TimeBarAggregator.step Δ s t).1.builder._open
          = some (s.builder.getPrice t) := by
        rw [hsb, fire_open_of_pos Δ _ _ _ hupd (by omega), update_close]
      constructor
      · rw [hsplit, List.chain'_append]
        refine ⟨by rw [hbars]; exact fire_chain Δ _ _ _ hupd,
          (ih _ hupcnext).1, ?_⟩
        intro x hx y hy
        have hxc : x.close_price = some (s.builder.getPrice t) := by
          rw [fire_last_close Δ _ _ _ hupd x (by rw [← hbars]; exact hx), update_close]
        have hyo : y.open_price = some (s.builder.getPrice t) :=
          (ih _ hupcnext).2 (s.builder.getPrice t) hopen2 y hy
        rw [hyo, hxc]
      · intro q hq bar hbar
        obtain ⟨r, rs, hr⟩ := List.exists_cons_of_ne_nil hne
        rw [hsplit, hr, List.cons_append, List.head?_cons, Option.some.injEq] at hbar
        have hhead := fire_head_open Δ _ _ _ r (by rw [← hbars, hr]; rfl)
        rw [← hbar, hhead, update_open_some s.builder t q hq]

/-! Claim C6. -/

/-- Claim C6: a TimeBarAggregator over a simulated clock with timer
interval Δ > 0 whose next close starts at nc0, fed a non-empty
timestamp-ordered tick stream, emits exactly one bar per timer event due
at or before the last tick timestamp (intervals without ticks included,
their bars being built when a later tick advances the clock), and every
emitted bar after the first opens at the previous emitted bar's close. -/
theorem C6_time_bars_count_and_continuity (sp : BarSpecification)
    (Δ nc0 : Nat) (hΔ : 0 < Δ) (t : Tick) (l : List Tick)
    (hchain : List.Chain' (fun a b => a.timestamp ≤ b.timestamp) (t :: l)) :
    (TimeBarAggregator.run Δ ⟨BarBuilder.init sp true, nc0⟩ (t :: l)).2.length
      = TimeBarAggregator.numDue nc0 Δ
          (((t :: l).getLast (List.cons_ne_nil t l)).timestamp)
    ∧ List.Chain' (fun x y => y.open_price = x.close_price)
        (TimeBarAggregator.run Δ ⟨BarBuilder.init sp true, nc0⟩ (t :: l)).2 :=
  ⟨time_run_length Δ hΔ l t ⟨BarBuilder.init sp true, nc0⟩ hchain,
   (time_run_chain Δ (t :: l) ⟨BarBuilder.init sp true, nc0⟩ rfl).1⟩

/-- Witness for C6 at a concrete interval and tick stream: interval 10
starting at close time 10, ticks at times 5, 27 and 41, so four timer
events (10, 20, 30, 40) are due by the last tick with two tickless
intervals among them. -/
theorem C6_time_bars_count_and_continuity_witness :
    (TimeBarAggregator.run 10 ⟨BarBuilder.init ⟨PriceType.bid, 1, 1⟩ true, 10⟩
        [⟨1, 1, 1, 1, 5⟩, ⟨2, 2, 1, 1, 27⟩, ⟨3, 3, 1, 1, 41⟩]).2.length
      = TimeBarAggregator.numDue 10 10
          ((([⟨1, 1, 1, 1, 5⟩, ⟨2, 2, 1, 1, 27⟩, ⟨3, 3, 1, 1, 41⟩] : List Tick).getLast
            (by simp)).timestamp)
    ∧ List.Chain' (fun x y => y.open_price = x.close_price)
        (TimeBarAggregator.run 10 ⟨BarBuilder.init ⟨PriceType.bid, 1, 1⟩ true, 10⟩
          [⟨1, 1, 1, 1, 5⟩, ⟨2, 2, 1, 1, 27⟩, ⟨3, 3, 1, 1, 41⟩]).2 :=
  C6_time_bars_count_and_continuity ⟨PriceType.bid, 1, 1⟩ 10 10 (by decide)
    ⟨1, 1, 1, 1, 5⟩ [⟨2, 2, 1, 1, 27⟩, ⟨3, 3, 1, 1, 41⟩]
    (by norm_num [List.chain'_cons])

/-! Claim C1. -/

/-- Claim C1, counterexample: applying buy 100 @ 10.0 then buy 50 @ 12.0
to a fresh Position leaves average_entry_price == 12.0, the price of the
last fill, which is not the quantity-weighted running average
(100*10 + 50*12)/150. -/
theorem C1_counterexample :
    (((Position.init "AUDUSD" "P-1" 0).apply
        (OrderEvent.filled OrderSide.buy 100 10 1 "E-1" "ET-1")).1.apply
        (OrderEvent.filled OrderSide.buy 50 12 2 "E-2" "ET-2")).1._average_entry_price
      = some 12 ∧ (12 : Rat) ≠ (100 * 10 + 50 * 12) / 150 := by
  constructor
  · rfl
  · norm_num

/-- Claim C1, amended: after each successfully applied fill (full or
partial) the average entry price of the Position equals the average
price of that most recent fill alone, not a quantity-weighted running
average of all opening fills. -/
theorem C1_avg_entry_is_last_fill_price (p : Position) (side : OrderSide)
    (qty : Int) (px : Rat) (t : Nat) (eid etk : String)
    (hq : 0 < qty) (hp : 0 < px) :
    ((p.apply (OrderEvent.filled side qty px t eid etk)).1._average_entry_price
        = some px ∧
      (p.apply (OrderEvent.filled side qty px t eid etk)).2 = none) ∧
    ((p.apply (OrderEvent.partFilled side qty px t eid etk)).1._average_entry_price
        = some px ∧
      (p.apply (OrderEvent.partFilled side qty px t eid etk)).2 = none) := by
  have h1 : ¬ (qty ≤ 0) := by omega
  have h2 : ¬ (px ≤ 0) := not_le.mpr hp
  simp only [Position.apply, if_neg h1, if_neg h2]
  exact ⟨⟨updatePosition_avg_entry _ _ _ _ _, trivial⟩,
         ⟨updatePosition_avg_entry _ _ _ _ _, trivial⟩⟩

/-- Witness for C1 at a concrete input. -/
theorem C1_avg_entry_is_last_fill_price_witness :
    ((Position.init "AUDUSD" "P-1" 0).apply
        (OrderEvent.filled OrderSide.buy 100 10 1 "E-1" "ET-1")).1._average_entry_price
      = some 10 :=
  (C1_avg_entry_is_last_fill_price (Position.init "AUDUSD" "P-1" 0)
    OrderSide.buy 100 10 1 "E-1" "ET-1" (by decide) (by decide)).1.1

/-! Claim C2. -/

/-- Claim C2 (code bug in the source): build() on a never-updated
BarBuilder does not fail with a no-data error; it performs no check and
returns a Bar whose open, high, low and close are all None with a None
timestamp, validation having been skipped with checked=False. -/
theorem C2_build_without_update_returns_null_bar (sp : BarSpecification)
    (upc : Bool) :
    ((BarBuilder.init sp upc).build none).1
      = ⟨none, none, none, none, 0, none⟩ := rfl

/-! Claim C3. -/

/-- Claim C3 (code bug in the source): a single SELL fill of quantity 100
drives the relative quantity to -100; the peak update guards with
abs(relative_quantity) > peak but assigns the signed relative quantity,
so the stored peak becomes -100 while abs(net_qty) is 100; a second SELL
then drops the stored peak further to -200, so it is neither the running
maximum of abs(net_qty) nor non-decreasing. -/
theorem C3_peak_qty_stores_signed_quantity :
    ((Position.init "AUDUSD" "P-1" 0).apply
        (OrderEvent.filled OrderSide.sell 100 1 1 "E-1" "ET-1")).1._peak_quantity
      = -100 ∧
    ((Position.init "AUDUSD" "P-1" 0).apply
        (OrderEvent.filled OrderSide.sell 100 1 1 "E-1" "ET-1")).1.quantity = 100 ∧
    (((Position.init "AUDUSD" "P-1" 0).apply
        (OrderEvent.filled OrderSide.sell 100 1 1 "E-1" "ET-1")).1.apply
        (OrderEvent.filled OrderSide.sell 100 1 2 "E-2" "ET-2")).1._peak_quantity
      = -200 := by
  refine ⟨rfl, rfl, rfl⟩

/-! Claim C5. -/

/-- Claim C5, counterexample: applying a non-fill event to a fresh
Position fails, but the Position is not left exactly as before: the
event log has grown by the rejected event. -/
theorem C5_counterexample :
    ((Position.init "AUDUSD" "P-1" 0).apply
        (OrderEvent.other "OrderCancelled")).2.isSome = true ∧
    ((Position.init "AUDUSD" "P-1" 0).apply
        (OrderEvent.other "OrderCancelled")).1 ≠ Position.init "AUDUSD" "P-1" 0 := by
  refine ⟨rfl, ?_⟩
  decide

/-- Claim C5, amended: applying an event that is neither a full nor a
partial fill fails with the TypeError message, and every component of
the Position state except the event log is unchanged; the event log,
however, gains the rejected event, because apply appends before it
dispatches on the event type. -/
theorem C5_apply_other_appends_then_fails (p : Position) (name : String) :
    p.apply (OrderEvent.other name)
      = ({ p with _events := p._events ++ [OrderEvent.other name] },
         some "Cannot apply event (unrecognized event).") := rfl

/-! Claim C4. -/

theorem eqv_self (d : PyDecimal) : PyDecimal.eqv d d = true := by
  simp [PyDecimal.eqv]

/-- Concrete PositionChanged-shaped event whose realized_return has six
decimal places (0.000001). -/
def c4cex : PositionEvent :=
  { trader_id := "TRADER-001", strategy_id := "S-001",
    instrument_id := "AUD/USD.SIM",
    position_id := "P-1", account_id := "SIM-000", from_order := "O-1",
    entry := OrderSide.buy, side := PositionSide.long,
    net_qty := ⟨100, 0⟩, quantity := ⟨100, 0⟩, peak_qty := ⟨100, 0⟩,
    last_qty := ⟨50, 0⟩, last_px := ⟨10, 0⟩, currency := "USD",
    avg_px_open := ⟨10, 0⟩, avg_px_close := none,
    realized_points := ⟨0, 0⟩, realized_return := ⟨1, 6⟩,
    realized_pnl := ⟨⟨0, 2⟩, "USD"⟩,
    ts_opened_ns := 0, ts_closed_ns := 0, duration_ns := 0,
    event_id := "E-1", timestamp_ns := 0 }

/-- Claim C4, counterexample: for a PositionChanged event whose
realized_return is 0.000001, to_dict writes realized_return with the
fixed five-decimal f-string format (0.00000), so from_dict(to_dict(e))
succeeds but differs from e on realized_return: the round trip is not
field-for-field exact. -/
theorem C4_counterexample :
    (PositionChanged.from_dict (PositionChanged.to_dict c4cex)).map
        (fun f => PositionEvent.eqb f c4cex) = some false := by decide

/-- Claim C4, amended: from_dict(to_dict(event)) reproduces the event
field-for-field for each of the three variants, with every Decimal-typed
field except realized_return round-tripped through its exact base-10
string; realized_return is serialized with a fixed five-decimal format,
so the round trip requires the value to be unchanged by rounding to five
decimal places, and (for Changed and Closed) a present avg_px_close must
be non-zero, a zero being serialized as None by Python truthiness. -/
theorem C4_roundtrip_amended :
    (∀ e : PositionEvent, e.side ≠ PositionSide.flat → e.avg_px_close = none →
      e.ts_closed_ns = 0 → e.duration_ns = 0 →
      PyDecimal.eqv (PyDecimal.fmt5 e.realized_return) e.realized_return = true →
      ∃ f, PositionOpened.from_dict (PositionOpened.to_dict e) = some f
        ∧ PositionEvent.eqb f e = true) ∧
    (∀ e : PositionEvent, e.side ≠ PositionSide.flat →
      e.ts_closed_ns = 0 → e.duration_ns = 0 →
      (e.avg_px_close = none ∨ ∃ v, e.avg_px_close = some v ∧ v.truthy = true) →
      PyDecimal.eqv (PyDecimal.fmt5 e.realized_return) e.realized_return = true →
      ∃ f, PositionChanged.from_dict (PositionChanged.to_dict e) = some f
        ∧ PositionEvent.eqb f e = true) ∧
    (∀ e : PositionEvent, e.side = PositionSide.flat →
      (∃ v, e.avg_px_close = some v ∧ v.truthy = true) →
      PyDecimal.eqv (PyDecimal.fmt5 e.realized_return) e.realized_return = true →
      ∃ f, PositionClosed.from_dict (PositionClosed.to_dict e) = some f
        ∧ PositionEvent.eqb f e = true) := by
  refine ⟨?_, ?_, ?_⟩
  · intro e hside havg hts hdur hfmt
    have hfd : PositionOpened.from_dict (PositionOpened.to_dict e)
        = some { e with realized_return := PyDecimal.fmt5 e.realized_return,
                        avg_px_close := none, ts_closed_ns := 0, duration_ns := 0 } := by
      unfold PositionOpened.from_dict PositionOpened.to_dict
        PositionEvent.toDictNamed PositionOpened.init
      dsimp only
      rw [if_neg hside]
    refine ⟨_, hfd, ?_⟩
    simp only [PositionEvent.eqb, havg, hts, hdur]
    simp [eqv_self, hfmt]
  · intro e hside hts hdur havg hfmt
    rcases havg with hnone | ⟨v, hv, hvt⟩
    · have hfd : PositionChanged.from_dict (PositionChanged.to_dict e)
          = some { e with realized_return := PyDecimal.fmt5 e.realized_return,
                          avg_px_close := none, ts_closed_ns := 0, duration_ns := 0 } := by
        unfold PositionChanged.from_dict PositionChanged.to_dict
          PositionEvent.toDictNamed PositionChanged.init
        dsimp only
        rw [hnone, if_neg hside]
      refine ⟨_, hfd, ?_⟩
      simp only [PositionEvent.eqb, hnone, hts, hdur]
      simp [eqv_self, hfmt]
    · have hfd : PositionChanged.from_dict (PositionChanged.to_dict e)
          = some { e with realized_return := PyDecimal.fmt5 e.realized_return,
                          avg_px_close := some v, ts_closed_ns := 0, duration_ns := 0 } := by
        unfold PositionChanged.from_dict PositionChanged.to_dict
          PositionEvent.toDictNamed PositionChanged.init
        dsimp only
        rw [hv]
        try dsimp only
        rw [hvt]
        simp only [eq_self_iff_true, if_true]
        rw [if_neg hside]
      refine ⟨_, hfd, ?_⟩
      simp only [PositionEvent.eqb, hv, hts, hdur]
      simp [eqv_self, hfmt]
  · intro e hside havg hfmt
    rcases havg with ⟨v, hv, hvt⟩
    have hfd : PositionClosed.from_dict (PositionClosed.to_dict e)
        = some { e with realized_return := PyDecimal.fmt5 e.realized_return,
                        avg_px_close := some v } := by
      unfold PositionClosed.from_dict PositionClosed.to_dict
        PositionEvent.toDictNamed PositionClosed.init
      dsimp only
      rw [hv]
      try dsimp only
      rw [hvt]
      simp only [eq_self_iff_true, if_true]
      rw [if_pos hside]
    refine ⟨_, hfd, ?_⟩
    simp only [PositionEvent.eqb, hv]
    simp [eqv_self, hfmt]

/-- Concrete PositionOpened-shaped event for the C4 witness. -/
def c4wOpened : PositionEvent :=
  { c4cex with realized_return := ⟨12345, 5⟩ }

/-- Concrete PositionChanged-shaped event for the C4 witness. -/
def c4wChanged : PositionEvent :=
  { c4cex with avg_px_close := some ⟨1, 0⟩, realized_return := ⟨12345, 5⟩ }

/-- Concrete PositionClosed-shaped event for the C4 witness. -/
def c4wClosed : PositionEvent :=
  { c4cex with
    side := PositionSide.flat
    net_qty := ⟨0, 0⟩
    quantity := ⟨0, 0⟩
    avg_px_close := some ⟨2, 0⟩
    realized_return := ⟨12345, 5⟩
    ts_closed_ns := 5
    duration_ns := 5 }

/-- Witness for C4 at concrete events of each variant. -/
theorem C4_roundtrip_amended_witness :
    (∃ f, PositionOpened.from_dict (PositionOpened.to_dict c4wOpened) = some f
       ∧ PositionEvent.eqb f c4wOpened = true)
    ∧ (∃ f, PositionChanged.from_dict (PositionChanged.to_dict c4wChanged) = some f
       ∧ PositionEvent.eqb f c4wChanged = true)
    ∧ (∃ f, PositionClosed.from_dict (PositionClosed.to_dict c4wClosed) = some f
       ∧ PositionEvent.eqb f c4wClosed = true) :=
  ⟨C4_roundtrip_amended.1 c4wOpened (by decide) rfl rfl rfl (by decide),
   C4_roundtrip_amended.2.1 c4wChanged (by decide) rfl rfl
     (Or.inr ⟨⟨1, 0⟩, rfl, by decide⟩) (by decide),
   C4_roundtrip_amended.2.2 c4wClosed rfl ⟨⟨2, 0⟩, rfl, by decide⟩ (by decide)⟩

/-! Claim C10. -/

/-- Claim C10: the PositionOpened and PositionChanged constructors
assert side != FLAT and the PositionClosed constructor asserts
side == FLAT, so every successfully constructed event of those variants
(directly, via create, or via from_dict) carries the side constraint of
its variant, construction with any other side fails, and for a position
snapshot whose side matches the lifecycle transition the failing branch
is unreachable. -/
theorem C10_side_assertions :
    (∀ (a1 a2 a3 a4 a5 a6 : String) (en : OrderSide) (sd : PositionSide)
       (d1 d2 d3 d4 d5 : PyDecimal) (c : String) (d6 d7 d8 : PyDecimal)
       (m : Money) (t1 : Int) (eid : String) (t2 : Int) (e : PositionEvent),
       PositionOpened.init a1 a2 a3 a4 a5 a6 en sd d1 d2 d3 d4 d5 c d6 d7 d8 m t1 eid t2
         = some e → e.side = sd ∧ e.side ≠ PositionSide.flat) ∧
    (∀ (a1 a2 a3 a4 a5 a6 : String) (en : OrderSide)
       (d1 d2 d3 d4 d5 : PyDecimal) (c : String) (d6 d7 d8 : PyDecimal)
       (m : Money) (t1 : Int) (eid : String) (t2 : Int),
       PositionOpened.init a1 a2 a3 a4 a5 a6 en PositionSide.flat d1 d2 d3 d4 d5 c d6 d7 d8 m t1 eid t2
         = none) ∧
    (∀ (a1 a2 a3 a4 a5 a6 : String) (en : OrderSide) (sd : PositionSide)
       (d1 d2 d3 d4 d5 : PyDecimal) (c : String) (d6 : PyDecimal)
       (apc : Option PyDecimal) (d7 d8 : PyDecimal)
       (m : Money) (t1 : Int) (eid : String) (t2 : Int) (e : PositionEvent),
       PositionChanged.init a1 a2 a3 a4 a5 a6 en sd d1 d2 d3 d4 d5 c d6 apc d7 d8 m t1 eid t2
         = some e → e.side = sd ∧ e.side ≠ PositionSide.flat) ∧
    (∀ (a1 a2 a3 a4 a5 a6 : String) (en : OrderSide)
       (d1 d2 d3 d4 d5 : PyDecimal) (c : String) (d6 : PyDecimal)
       (apc : Option PyDecimal) (d7 d8 : PyDecimal)
       (m : Money) (t1 : Int) (eid : String) (t2 : Int),
       PositionChanged.init a1 a2 a3 a4 a5 a6 en PositionSide.flat d1 d2 d3 d4 d5 c d6 apc d7 d8 m t1 eid t2
         = none) ∧
    (∀ (a1 a2 a3 a4 a5 a6 : String) (en : OrderSide) (sd : PositionSide)
       (d1 d2 d3 d4 d5 : PyDecimal) (c : String) (d6 d7 d8 d9 : PyDecimal)
       (m : Money) (t1 t2 t3 : Int) (eid : String) (t4 : Int) (e : PositionEvent),
       PositionClosed.init a1 a2 a3 a4 a5 a6 en sd d1 d2 d3 d4 d5 c d6 d7 d8 d9 m t1 t2 t3 eid t4
         = some e → e.side = sd ∧ e.side = PositionSide.flat) ∧
    (∀ (a1 a2 a3 a4 a5 a6 : String) (en : OrderSide) (sd : PositionSide)
       (d1 d2 d3 d4 d5 : PyDecimal) (c : String) (d6 d7 d8 d9 : PyDecimal)
       (m : Money) (t1 t2 t3 : Int) (eid : String) (t4 : Int),
       sd ≠ PositionSide.flat →
       PositionClosed.init a1 a2 a3 a4 a5 a6 en sd d1 d2 d3 d4 d5 c d6 d7 d8 d9 m t1 t2 t3 eid t4
         = none) ∧
    (∀ (d : PositionEventDict) (e : PositionEvent),
       (PositionOpened.from_dict d = some e → e.side ≠ PositionSide.flat) ∧
       (PositionChanged.from_dict d = some e → e.side ≠ PositionSide.flat) ∧
       (PositionClosed.from_dict d = some e → e.side = PositionSide.flat)) ∧
    (∀ (p : PositionSnapshot) (fill : OrderFillInfo) (eid : String) (ts : Int),
       (p.side ≠ PositionSide.flat →
         (PositionOpened.create p fill eid ts).isSome = true ∧
         (PositionChanged.create p fill eid ts).isSome = true) ∧
       (p.side = PositionSide.flat → ∀ apc, p.avg_px_close = some apc →
         (PositionClosed.create p fill eid ts).isSome = true)) := by
  have hop : ∀ (a1 a2 a3 a4 a5 a6 : String) (en : OrderSide) (sd : PositionSide)
      (d1 d2 d3 d4 d5 : PyDecimal) (c : String) (d6 d7 d8 : PyDecimal)
      (m : Money) (t1 : Int) (eid : String) (t2 : Int) (e : PositionEvent),
      PositionOpened.init a1 a2 a3 a4 a5 a6 en sd d1 d2 d3 d4 d5 c d6 d7 d8 m t1 eid t2
        = some e → e.side = sd ∧ e.side ≠ PositionSide.flat := by
    intro a1 a2 a3 a4 a5 a6 en sd d1 d2 d3 d4 d5 c d6 d7 d8 m t1 eid t2 e h
    unfold PositionOpened.init at h
    by_cases hs : sd = PositionSide.flat
    · rw [if_pos hs] at h
      cases h
    · rw [if_neg hs] at h
      cases h
      exact ⟨rfl, hs⟩
  have hch : ∀ (a1 a2 a3 a4 a5 a6 : String) (en : OrderSide) (sd : PositionSide)
      (d1 d2 d3 d4 d5 : PyDecimal) (c : String) (d6 : PyDecimal)
      (apc : Option PyDecimal) (d7 d8 : PyDecimal)
      (m : Money) (t1 : Int) (eid : String) (t2 : Int) (e : PositionEvent),
      PositionChanged.init a1 a2 a3 a4 a5 a6 en sd d1 d2 d3 d4 d5 c d6 apc d7 d8 m t1 eid t2
        = some e → e.side = sd ∧ e.side ≠ PositionSide.flat := by
    intro a1 a2 a3 a4 a5 a6 en sd d1 d2 d3 d4 d5 c d6 apc d7 d8 m t1 eid t2 e h
    unfold PositionChanged.init at h
    by_cases hs : sd = PositionSide.flat
    · rw [if_pos hs] at h
      cases h
    · rw [if_neg hs] at h
      cases h
      exact ⟨rfl, hs⟩
  have hcl : ∀ (a1 a2 a3 a4 a5 a6 : String) (en : OrderSide) (sd : PositionSide)
      (d1 d2 d3 d4 d5 : PyDecimal) (c : String) (d6 d7 d8 d9 : PyDecimal)
      (m : Money) (t1 t2 t3 : Int) (eid : String) (t4 : Int) (e : PositionEvent),
      PositionClosed.init a1 a2 a3 a4 a5 a6 en sd d1 d2 d3 d4 d5 c d6 d7 d8 d9 m t1 t2 t3 eid t4
        = some e → e.side = sd ∧ e.side = PositionSide.flat := by
    intro a1 a2 a3 a4 a5 a6 en sd d1 d2 d3 d4 d5 c d6 d7 d8 d9 m t1 t2 t3 eid t4 e h
    unfold PositionClosed.init at h
    by_cases hs : sd = PositionSide.flat
    · rw [if_pos hs] at h
      cases h
      exact ⟨rfl, hs⟩
    · rw [if_neg hs] at h
      cases h
  refine ⟨hop, ?_, hch, ?_, hcl, ?_, ?_, ?_⟩
  · intro a1 a2 a3 a4 a5 a6 en d1 d2 d3 d4 d5 c d6 d7 d8 m t1 eid t2
    unfold PositionOpened.init
    rw [if_pos rfl]
  · intro a1 a2 a3 a4 a5 a6 en d1 d2 d3 d4 d5 c d6 apc d7 d8 m t1 eid t2
    unfold PositionChanged.init
    rw [if_pos rfl]
  · intro a1 a2 a3 a4 a5 a6 en sd d1 d2 d3 d4 d5 c d6 d7 d8 d9 m t1 t2 t3 eid t4 hs
    unfold PositionClosed.init
    rw [if_neg hs]
  · intro d e
    refine ⟨?_, ?_, ?_⟩
    · intro h
      exact (hop _ _ _ _ _ _ _ _ _ _ _ _ _ _ _ _ _ _ _ _ _ _ h).2
    · intro h
      exact (hch _ _ _ _ _ _ _ _ _ _ _ _ _ _ _ _ _ _ _ _ _ _ _ h).2
    · intro h
      unfold PositionClosed.from_dict at h
      cases hac : d.avg_px_close with
      | none => rw [hac] at h; cases h
      | some apc =>
        rw [hac] at h
        exact (hcl _ _ _ _ _ _ _ _ _ _ _ _ _ _ _ _ _ _ _ _ _ _ _ _ _ h).2
  · intro p fill eid ts
    constructor
    · intro hs
      constructor
      · unfold PositionOpened.create PositionOpened.init
        rw [if_neg hs]
        rfl
      · unfold PositionChanged.create PositionChanged.init
        rw [if_neg hs]
        rfl
    · intro hs apc hac
      unfold PositionClosed.create
      rw [hac]
      unfold PositionClosed.init
      dsimp only
      rw [if_pos hs]
      rfl

/-- Witness for C10 at concrete inputs: a FLAT PositionOpened
construction fails, and create calls succeed when the snapshot side
matches the variant. -/
theorem C10_side_assertions_witness :
    PositionOpened.init "T-1" "S-1" "I-1" "P-1" "A-1" "O-1" OrderSide.buy
        PositionSide.flat ⟨1, 0⟩ ⟨1, 0⟩ ⟨1, 0⟩ ⟨1, 0⟩ ⟨1, 0⟩ "USD" ⟨1, 0⟩
        ⟨0, 0⟩ ⟨0, 5⟩ ⟨⟨0, 2⟩, "USD"⟩ 0 "E-1" 0 = none
    ∧ (PositionOpened.create
        ⟨"T-1", "S-1", "I-1", "P-1", "A-1", "O-1", OrderSide.buy,
         PositionSide.long, ⟨1, 0⟩, ⟨1, 0⟩, ⟨1, 0⟩, "USD", ⟨1, 0⟩, none,
         ⟨0, 0⟩, ⟨0, 5⟩, ⟨⟨0, 2⟩, "USD"⟩, 0, 0, 0⟩
        ⟨⟨1, 0⟩, ⟨1, 0⟩⟩ "E-1" 0).isSome = true
    ∧ (PositionClosed.create
        ⟨"T-1", "S-1", "I-1", "P-1", "A-1", "O-1", OrderSide.buy,
         PositionSide.flat, ⟨0, 0⟩, ⟨0, 0⟩, ⟨1, 0⟩, "USD", ⟨1, 0⟩, some ⟨2, 0⟩,
         ⟨0, 0⟩, ⟨0, 5⟩, ⟨⟨0, 2⟩, "USD"⟩, 0, 5, 5⟩
        ⟨⟨1, 0⟩, ⟨1, 0⟩⟩ "E-1" 0).isSome = true :=
  ⟨C10_side_assertions.2.1 "T-1" "S-1" "I-1" "P-1" "A-1" "O-1" OrderSide.buy
      ⟨1, 0⟩ ⟨1, 0⟩ ⟨1, 0⟩ ⟨1, 0⟩ ⟨1, 0⟩ "USD" ⟨1, 0⟩ ⟨0, 0⟩ ⟨0, 5⟩
      ⟨⟨0, 2⟩, "USD"⟩ 0 "E-1" 0,
   ((C10_side_assertions.2.2.2.2.2.2.2 _ ⟨⟨1, 0⟩, ⟨1, 0⟩⟩ "E-1" 0).1
      (by decide)).1,
   (C10_side_assertions.2.2.2.2.2.2.2 _ ⟨⟨1, 0⟩, ⟨1, 0⟩⟩ "E-1" 0).2
      rfl ⟨2, 0⟩ rfl⟩
